import Mathlib

/-!
Shallow embedding of the configuration-validation layer of
nasa-cisto-ai/StereoPipelineGPU: the function `handle_arguments` and the
driver `main` from `src/asp/Tools/sat_sim.cc`, and the interface of the
`asp::CsmModel` wrapper from `src/asp/Camera/CsmModel.h`.

Doubles that use IEEE NaN as an "unset" marker are modelled as `Option ℚ`
(`none` models NaN): the only operations the validation code performs on
them are `std::isnan` (here matching on `none`) and ordered comparisons,
which are false on NaN (here false on `none`).

`handle_arguments` is a sequence of `if (cond) vw_throw(ArgumentErr ...)`
statements; each is embedded as a function returning `Option String`
(`some msg` models the throw) and the whole function as the first thrown
error, if any, over the checks in source order.
-/

namespace asp

/-- A double that may be NaN: `none` models NaN (the option was not set on
the command line), `some v` a finite parsed value. -/
abbrev OptD := Option ℚ

/-- vw::Vector3 with finite entries. `--first` and `--last` default to the
zero vector `vw::Vector3()`, which is how sat_sim.cc detects that they were
not given (line 122). -/
structure Vector3 where
  x : ℚ
  y : ℚ
  z : ℚ
  deriving DecidableEq

/-- The default-constructed `vw::Vector3()`. -/
def Vector3.zero : Vector3 := ⟨0, 0, 0⟩

/-- asp::SatSimOptions, holding the fields registered by `handle_arguments`
(sat_sim.cc lines 34-95) with their documented defaults. Vectors whose
default entries are NaN are split into per-component `OptD` fields, since
the validation code inspects the components separately. The member
`out_pref` models the field that holds the output location given by the
option `-o` (renamed here, same role as in the source). -/
structure SatSimOptions where
  dem_file : String
  ortho_file : String
  out_pref : String
  camera_list : String
  first : Vector3
  last : Vector3
  num_cameras : Int
  first_ground_pos_x : OptD
  first_ground_pos_y : OptD
  last_ground_pos_x : OptD
  last_ground_pos_y : OptD
  focal_length : OptD
  optical_center_x : OptD
  optical_center_y : OptD
  image_size_x : OptD
  image_size_y : OptD
  roll : OptD
  pitch : OptD
  yaw : OptD
  velocity : OptD
  horizontal_uncertainty_x : OptD
  horizontal_uncertainty_y : OptD
  horizontal_uncertainty_z : OptD
  jitter_frequency : OptD
  no_images : Bool
  dem_height_error_tol : ℚ

/-- IEEE comparison `v <= 0` on a maybe-NaN double: false when NaN. -/
def leZero : OptD → Bool
  | none => false
  | some v => decide (v ≤ 0)

/-- IEEE comparison `v < 0` on a maybe-NaN double: false when NaN. -/
def ltZero : OptD → Bool
  | none => false
  | some v => decide (v < 0)

/-- `int ans`: the number of set (non-NaN) members of the five-element
jitter parameter group (sat_sim.cc lines 155-159). -/
def jitterCount (opt : SatSimOptions) : Nat :=
  (if opt.jitter_frequency ≠ none then 1 else 0) +
  (if opt.velocity ≠ none then 1 else 0) +
  (if opt.horizontal_uncertainty_x ≠ none then 1 else 0) +
  (if opt.horizontal_uncertainty_y ≠ none then 1 else 0) +
  (if opt.horizontal_uncertainty_z ≠ none then 1 else 0)

/-- `bool have_roll_pitch_yaw` (sat_sim.cc lines 164-165). -/
abbrev haveRollPitchYaw (opt : SatSimOptions) : Prop :=
  opt.roll ≠ none ∧ opt.pitch ≠ none ∧ opt.yaw ≠ none

/-- `int ans` inside the camera-list branch: the number of NaN (unset)
members among roll, pitch, yaw (sat_sim.cc lines 147-149). -/
def rpyNanCount (opt : SatSimOptions) : Nat :=
  (if opt.roll = none then 1 else 0) +
  (if opt.pitch = none then 1 else 0) +
  (if opt.yaw = none then 1 else 0)

/-- sat_sim.cc lines 110-111: the DEM and ortho files are required. -/
def checkDemOrtho (opt : SatSimOptions) : Option String :=
  if opt.dem_file = "" ∨ opt.ortho_file = "" then
    some "Missing input DEM and/or ortho image.\n"
  else none

/-- sat_sim.cc lines 112-113: the output location is required. -/
def checkOutPref (opt : SatSimOptions) : Option String :=
  if opt.out_pref = "" then
    some "Missing output prefix.\n"
  else none

/-- sat_sim.cc lines 114-115: the image size must have no NaN component. -/
def checkImageSize (opt : SatSimOptions) : Option String :=
  if opt.image_size_x = none ∨ opt.image_size_y = none then
    some "The image size must be specified.\n"
  else none

/-- sat_sim.cc lines 117-119: camera-list excludes no-images. -/
def checkCameraListNoImages (opt : SatSimOptions) : Option String :=
  if opt.camera_list ≠ "" ∧ opt.no_images then
    some "The --camera-list and --no-images options cannot be used together.\n"
  else none

/-- sat_sim.cc lines 121-124: with no camera list, first and last camera
positions must differ from the default zero vector. -/
def checkFirstLast (opt : SatSimOptions) : Option String :=
  if opt.camera_list = "" ∧ (opt.first = Vector3.zero ∨ opt.last = Vector3.zero) then
    some "The first and last camera positions must be specified.\n"
  else none

/-- sat_sim.cc lines 131-132: with no camera list, at least 2 cameras. -/
def checkNumCameras (opt : SatSimOptions) : Option String :=
  if opt.camera_list = "" ∧ opt.num_cameras < 2 then
    some "The number of cameras must be at least 2.\n"
  else none

/-- sat_sim.cc lines 135-136: with no camera list, the focal length must be
set (not NaN). -/
def checkFocalLength (opt : SatSimOptions) : Option String :=
  if opt.camera_list = "" ∧ opt.focal_length = none then
    some "The focal length must be positive.\n"
  else none

/-- sat_sim.cc lines 137-138: with no camera list, the optical center must
have no NaN component. -/
def checkOpticalCenter (opt : SatSimOptions) : Option String :=
  if opt.camera_list = "" ∧ (opt.optical_center_x = none ∨ opt.optical_center_y = none) then
    some "The optical center must be specified.\n"
  else none

/-- sat_sim.cc lines 140-144: with no camera list, the first and last
ground positions are both set or both unset. `std::isnan(norm_2 v)` is true
exactly when some component of `v` is NaN. -/
def checkGroundPos (opt : SatSimOptions) : Option String :=
  if opt.camera_list = "" ∧
      ((opt.first_ground_pos_x = none ∨ opt.first_ground_pos_y = none) ≠
       (opt.last_ground_pos_x = none ∨ opt.last_ground_pos_y = none)) then
    some "Either both first and last ground positions must be specified, or none.\n"
  else none

/-- sat_sim.cc lines 146-152: with no camera list, roll, pitch and yaw are
all set or all unset. -/
def checkRollPitchYawAllOrNone (opt : SatSimOptions) : Option String :=
  if opt.camera_list = "" ∧ rpyNanCount opt ≠ 0 ∧ rpyNanCount opt ≠ 3 then
    some "Either all of roll, pitch, and yaw must be specified, or none.\n"
  else none

/-- sat_sim.cc lines 155-162: the five jitter parameters are all set or all
unset. -/
def checkJitterAllOrNone (opt : SatSimOptions) : Option String :=
  if jitterCount opt ≠ 0 ∧ jitterCount opt ≠ 5 then
    some "Either all of jitter-frequency, velocity, and horizontal uncertainty must be specified, or none.\n"
  else none

/-- sat_sim.cc lines 164-167: any set jitter parameter requires roll, pitch
and yaw to all be set. -/
def checkJitterNeedsRollPitchYaw (opt : SatSimOptions) : Option String :=
  if jitterCount opt ≠ 0 ∧ ¬ haveRollPitchYaw opt then
    some "Modelling jitter requires specifying --roll, --pitch, and --yaw.\n"
  else none

/-- sat_sim.cc lines 169-171: a camera list excludes the jitter group. -/
def checkCameraListJitter (opt : SatSimOptions) : Option String :=
  if opt.camera_list ≠ "" ∧ jitterCount opt ≠ 0 then
    some "The --camera-list, --jitter-frequency, --velocity, and --horizontal-uncertainty options cannot be used together.\n"
  else none

/-- sat_sim.cc lines 173-174: `opt.velocity <= 0` (false when NaN). -/
def checkVelocity (opt : SatSimOptions) : Option String :=
  if leZero opt.velocity then
    some "The satellite velocity must be positive.\n"
  else none

/-- sat_sim.cc lines 176-178: some horizontal-uncertainty component `< 0`
(each comparison false when NaN). -/
def checkHorizontalUncertainty (opt : SatSimOptions) : Option String :=
  if ltZero opt.horizontal_uncertainty_x || ltZero opt.horizontal_uncertainty_y ||
      ltZero opt.horizontal_uncertainty_z then
    some "The horizontal uncertainty must be non-negative.\n"
  else none

/-- sat_sim.cc lines 180-181: `opt.jitter_frequency <= 0` (false when NaN). -/
def checkJitterFrequencyPositive (opt : SatSimOptions) : Option String :=
  if leZero opt.jitter_frequency then
    some "The jitter frequency must be positive.\n"
  else none

/-- All throwing checks of `handle_arguments`, in source order
(sat_sim.cc lines 110-181). A check inside the `opt.camera_list == ""`
branch carries that branch condition in its own guard, which preserves the
sequential throw-on-first-failure control flow. -/
def checks (opt : SatSimOptions) : List (Option String) :=
  [checkDemOrtho opt, checkOutPref opt, checkImageSize opt,
   checkCameraListNoImages opt, checkFirstLast opt, checkNumCameras opt,
   checkFocalLength opt, checkOpticalCenter opt, checkGroundPos opt,
   checkRollPitchYawAllOrNone opt, checkJitterAllOrNone opt,
   checkJitterNeedsRollPitchYaw opt, checkCameraListJitter opt,
   checkVelocity opt, checkHorizontalUncertainty opt,
   checkJitterFrequencyPositive opt]

/-- The first thrown error among a sequence of checks, if any. -/
def firstSome : List (Option String) → Option String
  | [] => none
  | none :: rest => firstSome rest
  | some m :: _ => some m

/-- `handle_arguments` (sat_sim.cc lines 30-187): the first failing check
throws `vw::ArgumentErr` with its message; if none fails the function
returns (after which the output directory is created). -/
def handle_arguments (opt : SatSimOptions) : Except String Unit :=
  match firstSome (checks opt) with
  | some m => Except.error m
  | none => Except.ok ()

/-- Whether a fallible computation ended in a thrown error. -/
def isError {α : Type} : Except String α → Bool
  | Except.error _ => true
  | Except.ok _ => false

/-- What the body of `main` produced: the DEM and ortho rasters were read,
cameras were made (read from the list or generated from a trajectory), and
images were synthesized unless `--no-images` was given
(sat_sim.cc lines 189-234). -/
structure PipelineActions where
  demWasRead : Bool
  orthoWasRead : Bool
  camerasWereMade : Bool
  imagesWereMade : Bool

/-- `main` (sat_sim.cc lines 189-234): `handle_arguments` runs first and a
thrown `ArgumentErr` aborts the run before the DEM is read, before the
ortho image is read, and before any trajectory, camera or image is
produced. -/
def runMain (opt : SatSimOptions) : Except String PipelineActions :=
  match handle_arguments opt with
  | Except.error m => Except.error m
  | Except.ok _ =>
      Except.ok { demWasRead := true, orthoWasRead := true,
                  camerasWereMade := true, imagesWereMade := !opt.no_images }

/-- vw::Quaternion of doubles, as returned by `camera_pose`. -/
structure Quat where
  w : ℚ
  x : ℚ
  y : ℚ
  z : ℚ

/-- `DEFAULT_CSM_DESIRED_PRECISISON` (CsmModel.h lines 38-40, spelling as
in the source): `1.0e-8`. -/
def DEFAULT_CSM_DESIRED_PRECISISON : ℚ := 1 / 10 ^ 8

/-- State of `asp::CsmModel` (CsmModel.h lines 43-149): an opaque handle to
the vendor-managed `csm::RasterGM` model (contents not interpreted here),
the desired numerical precision, the datum semi-axes and the cached sun
position. -/
structure CsmModel where
  m_gm_model : Option Nat
  m_desired_precision : ℚ
  m_semi_major_axis : ℚ
  m_semi_minor_axis : ℚ
  m_sun_position : Vector3

/-- `CsmModel::camera_pose` (CsmModel.h lines 66-69): unconditionally
throws `vw::NoImplErr` for every pixel; the `return` after the throw is
dead code. -/
def CsmModel.camera_pose (_m : CsmModel) (_pix : ℚ × ℚ) : Except String Quat :=
  Except.error "CsmModel: Cannot retrieve camera_pose!"

/-- `CsmModel::setDesiredPrecision` (CsmModel.h lines 109-113): overwrites
only the `m_desired_precision` member of the live model. -/
def CsmModel.setDesiredPrecision (m : CsmModel) (desired_precision : ℚ) : CsmModel :=
  { m with m_desired_precision := desired_precision }

/-- Modelled from the spec: the `CsmModel::CsmModel()` constructor body
lives in CsmModel.cc, which is not among the sources; per the spec the
configured numerical precision defaults to 1e-8, i.e. the constructor
initializes `m_desired_precision` to the constant
`DEFAULT_CSM_DESIRED_PRECISISON` declared in CsmModel.h, with no model
loaded yet. -/
def CsmModel.mkDefault : CsmModel :=
  { m_gm_model := none, m_desired_precision := DEFAULT_CSM_DESIRED_PRECISISON,
    m_semi_major_axis := 0, m_semi_minor_axis := 0,
    m_sun_position := Vector3.zero }

/-! Helper lemmas about the check sequence. -/

/-- A list of checks yields no error exactly when every check passes. -/
lemma firstSome_eq_none_iff (l : List (Option String)) :
    firstSome l = none ↔ ∀ o ∈ l, o = none := by
  induction l with
  | nil => simp [firstSome]
  | cons hd tl ih =>
    cases hd with
    | none => simp [firstSome, ih]
    | some m => simp [firstSome]

/-- If some check in the sequence fails, `handle_arguments` throws. -/
lemma error_of_check {opt : SatSimOptions} {o : Option String}
    (hmem : o ∈ checks opt) (hne : o ≠ none) :
    isError (handle_arguments opt) = true := by
  unfold handle_arguments
  cases hfs : firstSome (checks opt) with
  | none => exact absurd ((firstSome_eq_none_iff (checks opt)).mp hfs o hmem) hne
  | some m => rfl

/-- If `handle_arguments` returns normally, every check passed. -/
lemma checks_none_of_ok {opt : SatSimOptions}
    (h : handle_arguments opt = Except.ok ()) :
    ∀ o ∈ checks opt, o = none := by
  have hfs : firstSome (checks opt) = none := by
    by_contra hne
    rcases Option.ne_none_iff_exists.mp hne with ⟨m, hm⟩
    unfold handle_arguments at h
    rw [← hm] at h
    exact Except.noConfusion h
  exact (firstSome_eq_none_iff (checks opt)).mp hfs

/-- A guarded throw fires when its condition holds. -/
lemma fires {c : Prop} [Decidable c] {msg : String} (h : c) :
    (if c then some msg else none) ≠ none := by
  simp [h]

/-- A thrown `ArgumentErr` in `handle_arguments` aborts `main` before any
pipeline action. -/
lemma runMain_isError_of {opt : SatSimOptions}
    (h : isError (handle_arguments opt) = true) :
    isError (runMain opt) = true := by
  unfold runMain
  cases hh : handle_arguments opt with
  | error m => rfl
  | ok u =>
    rw [hh] at h
    simp [isError] at h

/-- If the jitter count is zero, all five jitter parameters are unset. -/
lemma jitterCount_eq_zero {opt : SatSimOptions} (h : jitterCount opt = 0) :
    opt.jitter_frequency = none ∧ opt.velocity = none ∧
    opt.horizontal_uncertainty_x = none ∧ opt.horizontal_uncertainty_y = none ∧
    opt.horizontal_uncertainty_z = none := by
  unfold jitterCount at h
  split_ifs at h <;> simp_all

/-! Concrete configurations used to instantiate the theorems below. -/

/-- A fully valid generated-cameras configuration: every check passes. -/
def optBase : SatSimOptions :=
  { dem_file := "d.tif", ortho_file := "o.tif", out_pref := "run",
    camera_list := "", first := ⟨1, 1, 2⟩, last := ⟨3, 3, 2⟩,
    num_cameras := 2,
    first_ground_pos_x := none, first_ground_pos_y := none,
    last_ground_pos_x := none, last_ground_pos_y := none,
    focal_length := some 2,
    optical_center_x := some 1, optical_center_y := some 1,
    image_size_x := some 4, image_size_y := some 4,
    roll := none, pitch := none, yaw := none,
    velocity := none,
    horizontal_uncertainty_x := none, horizontal_uncertainty_y := none,
    horizontal_uncertainty_z := none,
    jitter_frequency := none,
    no_images := false, dem_height_error_tol := 1 / 1000 }


/-- Camera list plus a roll angle, nothing else unusual. -/
def optC1 : SatSimOptions := { optBase with camera_list := "cams.txt", roll := some 1 }


/-- Camera list plus one jitter parameter. -/
def optC1w : SatSimOptions := { optBase with camera_list := "cams.txt", jitter_frequency := some 1 }


/-- Only one of the five jitter parameters is set. -/
def optC2a : SatSimOptions := { optBase with jitter_frequency := some 1 }

/-- No jitter parameter is set. -/
def optC2b : SatSimOptions := optBase

/-- All five jitter parameters set, roll, pitch and yaw all unset. -/
def optC3 : SatSimOptions :=
  { optBase with jitter_frequency := some 1, velocity := some 1,
                 horizontal_uncertainty_x := some 1,
                 horizontal_uncertainty_y := some 1,
                 horizontal_uncertainty_z := some 1 }


/-- All five jitter parameters set, roll, pitch and yaw all unset, every
other option valid. -/
def optC4 : SatSimOptions :=
  { optBase with jitter_frequency := some 1, velocity := some 1,
                 horizontal_uncertainty_x := some 1,
                 horizontal_uncertainty_y := some 1,
                 horizontal_uncertainty_z := some 1 }

/-- Valid configuration with only one camera requested. -/
def optC7b : SatSimOptions := { optBase with num_cameras := 1 }

/-- Valid configuration except that the DEM file is missing. -/
def optC8 : SatSimOptions := { optBase with dem_file := "" }

/-- Valid configuration except that the first camera position is given as
the zero vector. -/
def optC9 : SatSimOptions := { optBase with first := ⟨0, 0, 0⟩ }

/-- All five jitter parameters and roll, pitch, yaw set, but with a
negative velocity. -/
def optC10a : SatSimOptions :=
  { optBase with roll := some 1, pitch := some 1, yaw := some 1,
                 jitter_frequency := some 1, velocity := some (-1),
                 horizontal_uncertainty_x := some 1,
                 horizontal_uncertainty_y := some 1,
                 horizontal_uncertainty_z := some 1 }

/-- Configuration with the whole jitter group left unset. -/
def optC10b : SatSimOptions := { optBase with roll := some 1, pitch := some 1, yaw := some 1 }

/-! Claim theorems. -/

/-- C1, counterexample: a command line that supplies a camera list together
with a roll angle passes configuration validation and the whole run
proceeds, so the claim that any of roll, pitch or yaw combined with
camera-list fails validation is false on the code. -/
theorem C1_counterexample :
    optC1.camera_list = "cams.txt" ∧ optC1.roll = some 1 ∧
    handle_arguments optC1 = Except.ok () ∧ isError (runMain optC1) = false :=
  ⟨rfl, rfl, rfl, rfl⟩

/-- C1, amended: for every command line that supplies a camera-list file
together with any member of the jitter parameter group (jitter-frequency,
velocity, or a horizontal-uncertainty component), the run fails with an
ArgumentError before any processing; roll, pitch and yaw together with a
camera list are accepted. -/
theorem C1_camera_list_jitter_rejected (opt : SatSimOptions)
    (hcl : opt.camera_list ≠ "") (hj : jitterCount opt ≠ 0) :
    isError (runMain opt) = true := by
  apply runMain_isError_of
  apply error_of_check (o := checkCameraListJitter opt)
  · simp [checks]
  · unfold checkCameraListJitter
    exact fires ⟨hcl, hj⟩

/-- C1, witness: the amended statement at a concrete configuration. -/
theorem C1_witness : isError (runMain optC1w) = true :=
  C1_camera_list_jitter_rejected optC1w (by decide) (by decide)

/-- C2: setting a non-empty proper subset of the five jitter parameters
fails configuration validation with an ArgumentError, while setting all
five or none is accepted by the all-or-none jitter check. -/
theorem C2_jitter_all_or_none (opt : SatSimOptions) :
    (0 < jitterCount opt ∧ jitterCount opt < 5 →
      isError (handle_arguments opt) = true) ∧
    (jitterCount opt = 0 ∨ jitterCount opt = 5 →
      checkJitterAllOrNone opt = none) := by
  constructor
  · rintro ⟨h0, h5⟩
    apply error_of_check (o := checkJitterAllOrNone opt)
    · simp [checks]
    · unfold checkJitterAllOrNone
      exact fires ⟨by omega, by omega⟩
  · rintro (h | h) <;> simp [checkJitterAllOrNone, h]

/-- C2, witness: one set jitter parameter is rejected; the unset group
passes the all-or-none check. -/
theorem C2_witness :
    isError (handle_arguments optC2a) = true ∧ checkJitterAllOrNone optC2b = none :=
  ⟨(C2_jitter_all_or_none optC2a).1 (by decide),
   (C2_jitter_all_or_none optC2b).2 (Or.inl (by decide))⟩

/-- C3: whenever any jitter parameter is set and any of roll, pitch or yaw
is unset, configuration validation fails with an ArgumentError. -/
theorem C3_jitter_requires_roll_pitch_yaw (opt : SatSimOptions)
    (hj : jitterCount opt ≠ 0)
    (hmiss : opt.roll = none ∨ opt.pitch = none ∨ opt.yaw = none) :
    isError (handle_arguments opt) = true := by
  apply error_of_check (o := checkJitterNeedsRollPitchYaw opt)
  · simp [checks]
  · unfold checkJitterNeedsRollPitchYaw
    refine fires ⟨hj, fun hc => ?_⟩
    rcases hmiss with h | h | h
    · exact hc.1 h
    · exact hc.2.1 h
    · exact hc.2.2 h

/-- C3, witness: the full jitter group with roll unset is rejected. -/
theorem C3_witness : isError (handle_arguments optC3) = true :=
  C3_jitter_requires_roll_pitch_yaw optC3 (by decide) (Or.inl rfl)

/-- C4, counterexample: a configuration with the whole jitter group set and
no roll, pitch or yaw given is rejected, so jitter and the fixed angles are
not independent: the claim that such a configuration is valid is false on
the code. -/
theorem C4_counterexample :
    jitterCount optC4 = 5 ∧ optC4.roll = none ∧ optC4.pitch = none ∧
    optC4.yaw = none ∧
    handle_arguments optC4 =
      Except.error "Modelling jitter requires specifying --roll, --pitch, and --yaw.\n" :=
  ⟨rfl, rfl, rfl, rfl, rfl⟩

/-- C4, amended: jitter requires the fixed angles: a configuration with the
jitter parameter group set but no roll, pitch and yaw given fails
configuration validation with an ArgumentError. -/
theorem C4_jitter_not_independent (opt : SatSimOptions)
    (hj : jitterCount opt ≠ 0) (hr : opt.roll = none) (_hp : opt.pitch = none)
    (_hy : opt.yaw = none) :
    isError (handle_arguments opt) = true := by
  apply error_of_check (o := checkJitterNeedsRollPitchYaw opt)
  · simp [checks]
  · unfold checkJitterNeedsRollPitchYaw
    exact fires ⟨hj, fun hc => hc.1 hr⟩

/-- C4, witness: the amended statement at a concrete configuration. -/
theorem C4_witness : isError (handle_arguments optC4) = true :=
  C4_jitter_not_independent optC4 (by decide) rfl rfl rfl

/-- C5: querying the camera pose of the opaque CSM camera-model wrapper
signals a not-implemented error for every model state and every pixel. -/
theorem C5_camera_pose_not_implemented (m : CsmModel) (pix : ℚ × ℚ) :
    CsmModel.camera_pose m pix =
      Except.error "CsmModel: Cannot retrieve camera_pose!" := rfl

/-- C6: the configured numerical precision defaults to 1e-8, and the
precision setter changes only the precision of the live model, leaving the
loaded model handle, datum axes and sun position untouched. -/
theorem C6_precision_default_and_setter (m : CsmModel) (p : ℚ) :
    DEFAULT_CSM_DESIRED_PRECISISON = 1 / 10 ^ 8 ∧
    CsmModel.mkDefault.m_desired_precision = 1 / 10 ^ 8 ∧
    (m.setDesiredPrecision p).m_desired_precision = p ∧
    (m.setDesiredPrecision p).m_gm_model = m.m_gm_model ∧
    (m.setDesiredPrecision p).m_semi_major_axis = m.m_semi_major_axis ∧
    (m.setDesiredPrecision p).m_semi_minor_axis = m.m_semi_minor_axis ∧
    (m.setDesiredPrecision p).m_sun_position = m.m_sun_position :=
  ⟨rfl, rfl, rfl, rfl, rfl, rfl, rfl⟩

/-- C7: without a camera list, every accepted configuration requests at
least two cameras, and fewer than two cameras is rejected with an
ArgumentError. -/
theorem C7_num_cameras_at_least_two (opt : SatSimOptions)
    (hcl : opt.camera_list = "") :
    (handle_arguments opt = Except.ok () → 2 ≤ opt.num_cameras) ∧
    (opt.num_cameras < 2 → isError (handle_arguments opt) = true) := by
  constructor
  · intro hok
    by_contra hlt
    push_neg at hlt
    have h := checks_none_of_ok hok (checkNumCameras opt) (by simp [checks])
    simp [checkNumCameras, hcl, hlt] at h
  · intro hlt
    apply error_of_check (o := checkNumCameras opt)
    · simp [checks]
    · unfold checkNumCameras
      exact fires ⟨hcl, hlt⟩

/-- C7, witness: an accepted configuration with two cameras, and a
rejected one with one camera. -/
theorem C7_witness :
    2 ≤ optBase.num_cameras ∧ isError (handle_arguments optC7b) = true :=
  ⟨(C7_num_cameras_at_least_two optBase rfl).1 rfl,
   (C7_num_cameras_at_least_two optC7b rfl).2 (by decide)⟩

/-- C8: a command line missing the dem, ortho, output location or image
size fails with an ArgumentError during up-front validation; the run
aborts before the DEM or orthoimage is read and before any trajectory,
camera or image is produced. -/
theorem C8_required_arguments (opt : SatSimOptions)
    (h : opt.dem_file = "" ∨ opt.ortho_file = "" ∨ opt.out_pref = "" ∨
         opt.image_size_x = none ∨ opt.image_size_y = none) :
    isError (runMain opt) = true := by
  apply runMain_isError_of
  rcases h with h | h | h | h | h
  · apply error_of_check (o := checkDemOrtho opt)
    · simp [checks]
    · unfold checkDemOrtho
      exact fires (Or.inl h)
  · apply error_of_check (o := checkDemOrtho opt)
    · simp [checks]
    · unfold checkDemOrtho
      exact fires (Or.inr h)
  · apply error_of_check (o := checkOutPref opt)
    · simp [checks]
    · unfold checkOutPref
      exact fires h
  · apply error_of_check (o := checkImageSize opt)
    · simp [checks]
    · unfold checkImageSize
      exact fires (Or.inl h)
  · apply error_of_check (o := checkImageSize opt)
    · simp [checks]
    · unfold checkImageSize
      exact fires (Or.inr h)

/-- C8, witness: a missing DEM aborts the run before any pipeline action. -/
theorem C8_witness : isError (runMain optC8) = true :=
  C8_required_arguments optC8 (Or.inl rfl)

/-- C9: without a camera list, a first or last camera position equal to the
zero vector is indistinguishable from the unspecified default and is
rejected with an ArgumentError. -/
theorem C9_zero_position_rejected (opt : SatSimOptions)
    (hcl : opt.camera_list = "")
    (h : opt.first = Vector3.zero ∨ opt.last = Vector3.zero) :
    isError (handle_arguments opt) = true := by
  apply error_of_check (o := checkFirstLast opt)
  · simp [checks]
  · unfold checkFirstLast
    exact fires ⟨hcl, h⟩

/-- C9, witness: an explicit first position of (0, 0, 0) is rejected. -/
theorem C9_witness : isError (handle_arguments optC9) = true :=
  C9_zero_position_rejected optC9 rfl (Or.inl rfl)

/-- C10: with the jitter group set, a non-positive velocity, a non-positive
jitter frequency, or a negative horizontal-uncertainty component each fail
with an ArgumentError, while a fully unset jitter group passes all three
numeric checks. -/
theorem C10_jitter_numeric_checks (opt : SatSimOptions) :
    (jitterCount opt = 5 →
      (∀ v : ℚ, opt.velocity = some v → v ≤ 0 →
        isError (handle_arguments opt) = true) ∧
      (∀ f : ℚ, opt.jitter_frequency = some f → f ≤ 0 →
        isError (handle_arguments opt) = true) ∧
      (∀ u : ℚ, (opt.horizontal_uncertainty_x = some u ∨
                 opt.horizontal_uncertainty_y = some u ∨
                 opt.horizontal_uncertainty_z = some u) → u < 0 →
        isError (handle_arguments opt) = true)) ∧
    (jitterCount opt = 0 →
      checkVelocity opt = none ∧ checkHorizontalUncertainty opt = none ∧
      checkJitterFrequencyPositive opt = none) := by
  constructor
  · intro _
    refine ⟨fun v hv hv0 => ?_, fun f hf hf0 => ?_, fun u hu hu0 => ?_⟩
    · apply error_of_check (o := checkVelocity opt)
      · simp [checks]
      · simp [checkVelocity, leZero, hv, hv0]
    · apply error_of_check (o := checkJitterFrequencyPositive opt)
      · simp [checks]
      · simp [checkJitterFrequencyPositive, leZero, hf, hf0]
    · apply error_of_check (o := checkHorizontalUncertainty opt)
      · simp [checks]
      · rcases hu with h | h | h <;>
          simp [checkHorizontalUncertainty, ltZero, h, hu0]
  · intro h0
    obtain ⟨hjf, hv, hx, hy, hz⟩ := jitterCount_eq_zero h0
    refine ⟨?_, ?_, ?_⟩
    · simp [checkVelocity, hv, leZero]
    · simp [checkHorizontalUncertainty, hx, hy, hz, ltZero]
    · simp [checkJitterFrequencyPositive, hjf, leZero]

/-- C10, witness: a set jitter group with velocity -1 is rejected, and the
unset group passes the velocity, uncertainty and frequency checks. -/
theorem C10_witness :
    isError (handle_arguments optC10a) = true ∧
    checkVelocity optC10b = none ∧ checkHorizontalUncertainty optC10b = none ∧
    checkJitterFrequencyPositive optC10b = none :=
  ⟨((C10_jitter_numeric_checks optC10a).1 (by decide)).1 (-1) rfl (by norm_num),
   (C10_jitter_numeric_checks optC10b).2 (by decide)⟩

end asp
